import Mathlib

/-!
Shallow embedding of the DeepSeek-preview-API HTTP gateway
(`src/server.js` and the unnamed variant `src/unnamed/part_000`).

The repository is a single Express pipeline: request validation, one call
to the Hugging Face `textGeneration` endpoint, and a normalised success or
error envelope.  JSON field values reaching the handler are modelled by
`JsValue`; the upstream provider is a function parameter so that its
behaviour can be quantified over; each handler returns the HTTP response
together with the list of upstream calls it performed.
-/

namespace DeepSeekAPI

/-- Model of a JSON value as it can appear in a request-body field.
`obj` stands for any non-primitive value (object or array); it is always
truthy and never of string type, which is all the handler observes. -/
inductive JsValue where
  | null
  | boolean (b : Bool)
  | num (n : Int)
  | str (s : String)
  | obj
deriving DecidableEq, Repr

/-- The deserialised body of a POST /api/chat request:
`const { message, image_url } = req.body`.  `none` models an absent field. -/
structure ReqBody where
  message : Option JsValue
  image_url : Option JsValue
deriving DecidableEq, Repr

/-- JavaScript truthiness of a possibly-absent field value: `undefined`,
`null`, `false`, `0` and the empty string are falsy, everything else truthy. -/
def jsTruthy : Option JsValue → Bool
  | none => false
  | some .null => false
  | some (.boolean b) => b
  | some (.num n) => n != 0
  | some (.str s) => s != ""
  | some .obj => true

/-- Whether `typeof v === 'string'` holds for a possibly-absent field value. -/
def jsIsString : Option JsValue → Bool
  | some (.str _) => true
  | _ => false

/-- The string held by a field value known to be a string (defaulting to ""). -/
def fieldStr : Option JsValue → String
  | some (.str s) => s
  | _ => ""

/-- The constant model identifier used in both handler variants. -/
def modelId : String := "deepseek-ai/deepseek-coder-33b-instruct"

/-- The fixed generation parameters sent with every upstream call
(`parameters:` object of the `hf.textGeneration` call).  The decimal
constants of the source are modelled as exact rationals. -/
structure GenParams where
  max_new_tokens : Nat
  temperature : Rat
  return_full_text : Bool
  do_sample : Bool
  top_p : Rat
  top_k : Nat
  repetition_penalty : Rat
  length_penalty : Rat
  stop : List String
deriving DecidableEq, Repr

/-- The constant parameter record from the source (identical in both files). -/
def genParams : GenParams :=
  { max_new_tokens := 1000
    temperature := 7/10
    return_full_text := false
    do_sample := true
    top_p := 95/100
    top_k := 50
    repetition_penalty := 11/10
    length_penalty := 1
    stop := ["</s>", "Human:", "Assistant:"] }

/-- The argument object of one `hf.textGeneration` call.  It has exactly the
three fields the source passes: `model`, `inputs` and `parameters`; there is
no field for an image. -/
structure TextGenArgs where
  model : String
  inputs : String
  parameters : GenParams
deriving DecidableEq, Repr

/-- An upstream result object; `generated_text` may be absent (`none`). -/
structure GenResult where
  generated_text : Option String
deriving DecidableEq, Repr

/-- Behaviour of one upstream call: it either rejects with an error carrying
a `name` and a `message`, or resolves with a result that may itself be
null/undefined (`none`). -/
inductive UpstreamOutcome where
  | throwErr (name : String) (msg : String)
  | resolve (result : Option GenResult)
deriving DecidableEq, Repr

/-- Truthiness of `generated && generated.generated_text`: the guard
`if (!generated || !generated.generated_text) throw ...` fires exactly when
this is false (missing result, missing field, or empty string). -/
def generatedTextTruthy : Option GenResult → Bool
  | some r =>
    match r.generated_text with
    | some s => s != ""
    | none => false
  | none => false

/-- The generated text of a usable upstream result (defaulting to ""). -/
def generatedText : Option GenResult → String
  | some r =>
    match r.generated_text with
    | some s => s
    | none => ""
  | none => ""

/-- One element of the `content` array built (and then discarded) by the
`server.js` variant of the chat handler. -/
inductive ContentItem where
  | text (t : String)
  | image (url : String)
deriving DecidableEq, Repr

/-- The `content` array of `server.js`: a text item for the message, plus an
image item when `image_url` is truthy and of string type. -/
def buildContent (message : String) (image_url : Option JsValue) : List ContentItem :=
  if jsTruthy image_url && jsIsString image_url then
    [ContentItem.text message, ContentItem.image (fieldStr image_url)]
  else
    [ContentItem.text message]

/-- The `response` object of a successful chat reply. -/
structure ChatResponse where
  message : String
  model : String
  timestamp : String
deriving DecidableEq, Repr

/-- The JSON body of any response produced by the embedded routes. -/
inductive ApiBody where
  | success (response : ChatResponse)
  | errorEnvelope (error : String) (details : Option String) (timestamp : String)
  | health (status : String) (timestamp : String)
deriving DecidableEq, Repr

/-- An HTTP response: status code and JSON body. -/
structure HttpResponse where
  status : Nat
  body : ApiBody
deriving DecidableEq, Repr

/-- The POST /api/chat handler of `src/server.js`.  `upstream` models
`hf.textGeneration`; `now` models the value of `new Date().toISOString()`
during this request.  Returns the response together with the list of
upstream calls performed.  In the catch block, `server.js` maps an error
whose `name` is `'ValidationError'` to status 400 and everything else
to 500.  The `content` array is built but never forwarded, exactly as in
the source. -/
def handleChat (upstream : TextGenArgs → UpstreamOutcome) (body : ReqBody)
    (now : String) : HttpResponse × List TextGenArgs :=
  if !jsTruthy body.message || !jsIsString body.message then
    (⟨400, .errorEnvelope "Message is required and must be a string" none now⟩, [])
  else
    let message := fieldStr body.message
    let _content := buildContent message body.image_url
    let args : TextGenArgs := ⟨modelId, message, genParams⟩
    match upstream args with
    | .throwErr name emsg =>
      (⟨if name == "ValidationError" then 400 else 500,
        .errorEnvelope "Error processing request" (some emsg) now⟩, [args])
    | .resolve result =>
      if !generatedTextTruthy result then
        (⟨500, .errorEnvelope "Error processing request"
            (some "No response generated from the model") now⟩, [args])
      else
        (⟨200, .success ⟨generatedText result, modelId, now⟩⟩, [args])

/-- The POST /api/chat handler of `src/unnamed/part_000`.  Identical to
`handleChat` except that it builds no content array and its catch block
always answers 500. -/
def handleChatP (upstream : TextGenArgs → UpstreamOutcome) (body : ReqBody)
    (now : String) : HttpResponse × List TextGenArgs :=
  if !jsTruthy body.message || !jsIsString body.message then
    (⟨400, .errorEnvelope "Message is required and must be a string" none now⟩, [])
  else
    let message := fieldStr body.message
    let args : TextGenArgs := ⟨modelId, message, genParams⟩
    match upstream args with
    | .throwErr _ emsg =>
      (⟨500, .errorEnvelope "Error processing request" (some emsg) now⟩, [args])
    | .resolve result =>
      if !generatedTextTruthy result then
        (⟨500, .errorEnvelope "Error processing request"
            (some "No response generated from the model") now⟩, [args])
      else
        (⟨200, .success ⟨generatedText result, modelId, now⟩⟩, [args])

/-- The routing table of `src/unnamed/part_000`: GET /health, POST /api/chat,
and the `app.all('*')` catch-all returning 404. -/
def route (upstream : TextGenArgs → UpstreamOutcome) (method path : String)
    (body : ReqBody) (now : String) : HttpResponse × List TextGenArgs :=
  if method == "GET" && path == "/health" then
    (⟨200, .health "ok" now⟩, [])
  else if method == "POST" && path == "/api/chat" then
    handleChatP upstream body now
  else
    (⟨404, .errorEnvelope "Route not found" none now⟩, [])

/-- Modelled from the spec: the ISO-8601 timestamp shape produced by
JavaScript's `Date.prototype.toISOString` (a library routine, not part of
`src/`): exactly `YYYY-MM-DDTHH:MM:SS.mmmZ`, 24 characters. -/
def isIso8601 (s : String) : Bool :=
  let cs := s.toList
  cs.length == 24 &&
    (List.range 24).all fun i =>
      let c := cs.getD i ' '
      if i == 4 || i == 7 then c == '-'
      else if i == 10 then c == 'T'
      else if i == 13 || i == 16 then c == ':'
      else if i == 19 then c == '.'
      else if i == 23 then c == 'Z'
      else c.isDigit

/-- The same response with every timestamp field blanked, used to compare
responses up to their timestamps. -/
def stripTs : HttpResponse → HttpResponse
  | ⟨st, .success r⟩ => ⟨st, .success ⟨r.message, r.model, ""⟩⟩
  | ⟨st, .errorEnvelope e d _⟩ => ⟨st, .errorEnvelope e d ""⟩
  | ⟨st, .health s _⟩ => ⟨st, .health s ""⟩

/-! Helper lemmas shared by the claim theorems. -/

lemma validCond_false {m : Option JsValue} {s : String}
    (hm : m = some (.str s)) (hs : s ≠ "") :
    (!jsTruthy m || !jsIsString m) = false := by
  subst hm
  simp [jsTruthy, jsIsString, hs]

lemma fieldStr_eq {m : Option JsValue} {s : String} (hm : m = some (.str s)) :
    fieldStr m = s := by
  subst hm
  rfl

lemma handleChat_image_irrel (u : TextGenArgs → UpstreamOutcome)
    (m i₁ i₂ : Option JsValue) (t : String) :
    handleChat u ⟨m, i₁⟩ t = handleChat u ⟨m, i₂⟩ t := rfl

lemma handleChat_ts_irrel (u : TextGenArgs → UpstreamOutcome) (b : ReqBody)
    (t₁ t₂ : String) :
    stripTs (handleChat u b t₁).1 = stripTs (handleChat u b t₂).1 ∧
      (handleChat u b t₁).2 = (handleChat u b t₂).2 := by
  unfold handleChat
  cases hc : (!jsTruthy b.message || !jsIsString b.message) with
  | true => simp [hc, stripTs]
  | false =>
    simp only [hc, Bool.false_eq_true, if_false]
    cases hu : u ⟨modelId, fieldStr b.message, genParams⟩ with
    | throwErr name emsg => simp [stripTs]
    | resolve result =>
      cases hr : generatedTextTruthy result <;> simp [hr, stripTs]

lemma handleChatP_ts_irrel (u : TextGenArgs → UpstreamOutcome) (b : ReqBody)
    (t₁ t₂ : String) :
    stripTs (handleChatP u b t₁).1 = stripTs (handleChatP u b t₂).1 ∧
      (handleChatP u b t₁).2 = (handleChatP u b t₂).2 := by
  unfold handleChatP
  cases hc : (!jsTruthy b.message || !jsIsString b.message) with
  | true => simp [hc, stripTs]
  | false =>
    simp only [hc, Bool.false_eq_true, if_false]
    cases hu : u ⟨modelId, fieldStr b.message, genParams⟩ with
    | throwErr name emsg => simp [stripTs]
    | resolve result =>
      cases hr : generatedTextTruthy result <;> simp [hr, stripTs]

lemma handleChat_calls (u : TextGenArgs → UpstreamOutcome) {b : ReqBody}
    (now : String) {s : String} (hm : b.message = some (.str s)) (hs : s ≠ "") :
    (handleChat u b now).2 = [⟨modelId, s, genParams⟩] ∧
      (handleChatP u b now).2 = [⟨modelId, s, genParams⟩] := by
  have hc := validCond_false hm hs
  have hf := fieldStr_eq hm
  unfold handleChat handleChatP
  simp only [hc, Bool.false_eq_true, if_false, hf]
  cases hu : u ⟨modelId, s, genParams⟩ with
  | throwErr name emsg => simp
  | resolve result => cases hr : generatedTextTruthy result <;> simp [hr]

/-! Claim theorems. -/

/-- Claim C1: for every POST /api/chat request whose `message` is a
non-empty string, if the upstream `textGeneration` call resolves with a
non-empty `generated_text`, both handler variants answer status 200 with
body `response = (message, model, timestamp)` where the message equals the
upstream's generated text and the model is the constant
"deepseek-ai/deepseek-coder-33b-instruct". -/
theorem C1_success_response (u : TextGenArgs → UpstreamOutcome) (b : ReqBody)
    (now s txt : String)
    (hm : b.message = some (.str s)) (hs : s ≠ "")
    (hu : u ⟨modelId, s, genParams⟩ = .resolve (some ⟨some txt⟩))
    (ht : txt ≠ "") :
    (handleChat u b now).1 = ⟨200, .success ⟨txt, modelId, now⟩⟩ ∧
      (handleChatP u b now).1 = ⟨200, .success ⟨txt, modelId, now⟩⟩ := by
  have hc := validCond_false hm hs
  have hf := fieldStr_eq hm
  unfold handleChat handleChatP
  simp [hc, hf, hu, generatedTextTruthy, generatedText, ht]

/-- Witness for C1 at a concrete request and a concrete stub provider. -/
theorem C1_success_response_witness :
    (handleChat (fun _ => .resolve (some ⟨some "hi"⟩))
        ⟨some (.str "hello"), none⟩ "T").1 =
      ⟨200, .success ⟨"hi", modelId, "T"⟩⟩ :=
  (C1_success_response (fun _ => .resolve (some ⟨some "hi"⟩))
    ⟨some (.str "hello"), none⟩ "T" "hello" "hi" rfl (by decide) rfl
    (by decide)).1

/-- Claim C2: when the body's `message` field is absent, null, or not a
string (i.e. `typeof message !== 'string'`, which covers all three cases),
both handler variants answer 400 with the error string
"Message is required and must be a string" and the upstream provider is
never invoked (the call list is empty). -/
theorem C2_validation_rejects (u : TextGenArgs → UpstreamOutcome) (b : ReqBody)
    (now : String) (h : jsIsString b.message = false) :
    handleChat u b now =
      (⟨400, .errorEnvelope "Message is required and must be a string" none now⟩,
        []) ∧
      handleChatP u b now =
        (⟨400, .errorEnvelope "Message is required and must be a string" none now⟩,
          []) := by
  unfold handleChat handleChatP
  simp [h]

/-- Witness for C2 at a numeric `message` and a stub provider. -/
theorem C2_validation_rejects_witness :
    handleChat (fun _ => .resolve (some ⟨some "hi"⟩)) ⟨some (.num 42), none⟩ "T" =
      (⟨400, .errorEnvelope "Message is required and must be a string" none "T"⟩,
        []) :=
  (C2_validation_rejects (fun _ => .resolve (some ⟨some "hi"⟩))
    ⟨some (.num 42), none⟩ "T" (by decide)).1

/-- Counterexample to claim C3 as stated: in the `server.js` variant an
upstream error whose `name` is "ValidationError" (message "rate limited")
is answered with status 400, not the claimed server-error status 500. -/
theorem C3_counterexample :
    (handleChat (fun _ => .throwErr "ValidationError" "rate limited")
        ⟨some (.str "hi"), none⟩ "T").1 =
      ⟨400, .errorEnvelope "Error processing request" (some "rate limited") "T"⟩ ∧
      (400 : Nat) ≠ 500 := by
  constructor
  · rfl
  · decide

/-- Claim C3 (amended): for a valid string `message`, when the upstream call
rejects with an error, both variants answer with body
`error = "Error processing request"`, `details` = the failure's message and
a timestamp; the `part_000` variant always uses status 500, while the
`server.js` variant uses 400 when the error's name is "ValidationError" and
500 otherwise. -/
theorem C3_upstream_error (u : TextGenArgs → UpstreamOutcome) (b : ReqBody)
    (now s name emsg : String)
    (hm : b.message = some (.str s)) (hs : s ≠ "")
    (hu : u ⟨modelId, s, genParams⟩ = .throwErr name emsg) :
    (handleChat u b now).1 =
      ⟨if name == "ValidationError" then 400 else 500,
        .errorEnvelope "Error processing request" (some emsg) now⟩ ∧
      (handleChatP u b now).1 =
        ⟨500, .errorEnvelope "Error processing request" (some emsg) now⟩ := by
  have hc := validCond_false hm hs
  have hf := fieldStr_eq hm
  unfold handleChat handleChatP
  simp [hc, hf, hu]

/-- Witness for C3 (amended) at an ordinary error named "Error" with
message "rate limited": both variants answer 500. -/
theorem C3_upstream_error_witness :
    (handleChat (fun _ => .throwErr "Error" "rate limited")
        ⟨some (.str "hi"), none⟩ "T").1 =
      ⟨500, .errorEnvelope "Error processing request" (some "rate limited") "T"⟩ :=
  by
  have h := (C3_upstream_error (fun _ => .throwErr "Error" "rate limited")
    ⟨some (.str "hi"), none⟩ "T" "hi" "Error" "rate limited" rfl (by decide)
    rfl).1
  simpa using h

/-- Claim C4: for a valid string `message`, when the upstream call resolves
but the result is null or its `generated_text` is missing or empty, both
variants answer 500 with `details` = "No response generated from the model". -/
theorem C4_no_generated_text (u : TextGenArgs → UpstreamOutcome) (b : ReqBody)
    (now s : String) (result : Option GenResult)
    (hm : b.message = some (.str s)) (hs : s ≠ "")
    (hu : u ⟨modelId, s, genParams⟩ = .resolve result)
    (hr : generatedTextTruthy result = false) :
    (handleChat u b now).1 =
      ⟨500, .errorEnvelope "Error processing request"
        (some "No response generated from the model") now⟩ ∧
      (handleChatP u b now).1 =
        ⟨500, .errorEnvelope "Error processing request"
          (some "No response generated from the model") now⟩ := by
  have hc := validCond_false hm hs
  have hf := fieldStr_eq hm
  unfold handleChat handleChatP
  simp [hc, hf, hu, hr]

/-- Witness for C4 at a provider resolving with a null result. -/
theorem C4_no_generated_text_witness :
    (handleChat (fun _ => .resolve none) ⟨some (.str "hi"), none⟩ "T").1 =
      ⟨500, .errorEnvelope "Error processing request"
        (some "No response generated from the model") "T"⟩ :=
  (C4_no_generated_text (fun _ => .resolve none) ⟨some (.str "hi"), none⟩ "T"
    "hi" none rfl (by decide) rfl (by decide)).1

/-- Claim C5: for every valid request (non-empty string `message`, arbitrary
`image_url`), both variants invoke the upstream call exactly once, with
`inputs` equal to the message, the constant model identifier, and the fixed
generation parameters; the argument object has no field for `image_url`
(see `TextGenArgs`), so whatever `b.image_url` holds is never forwarded. -/
theorem C5_fixed_upstream_args (u : TextGenArgs → UpstreamOutcome) (b : ReqBody)
    (now s : String) (hm : b.message = some (.str s)) (hs : s ≠ "") :
    (handleChat u b now).2 = [⟨modelId, s, genParams⟩] ∧
      (handleChatP u b now).2 = [⟨modelId, s, genParams⟩] :=
  handleChat_calls u now hm hs

/-- Witness for C5 at a request carrying an `image_url`. -/
theorem C5_fixed_upstream_args_witness :
    (handleChat (fun _ => .resolve (some ⟨some "hi"⟩))
        ⟨some (.str "hey"), some (.str "http://img.example/x.png")⟩ "T").2 =
      [⟨modelId, "hey", genParams⟩] :=
  (C5_fixed_upstream_args (fun _ => .resolve (some ⟨some "hi"⟩))
    ⟨some (.str "hey"), some (.str "http://img.example/x.png")⟩ "T" "hey" rfl
    (by decide)).1

/-- Claim C6: in the `part_000` routing table, any method/path pair that is
neither GET /health nor POST /api/chat reaches the `app.all('*')` catch-all
and is answered 404 with error "Route not found" and a timestamp, without
invoking the upstream provider. -/
theorem C6_route_not_found (u : TextGenArgs → UpstreamOutcome)
    (method path : String) (b : ReqBody) (now : String)
    (h₁ : ¬(method = "GET" ∧ path = "/health"))
    (h₂ : ¬(method = "POST" ∧ path = "/api/chat")) :
    route u method path b now =
      (⟨404, .errorEnvelope "Route not found" none now⟩, []) := by
  unfold route
  simp [h₁, h₂]

/-- Witness for C6 at GET /nope. -/
theorem C6_route_not_found_witness :
    route (fun _ => .resolve none) "GET" "/nope" ⟨none, none⟩ "T" =
      (⟨404, .errorEnvelope "Route not found" none "T"⟩, []) :=
  C6_route_not_found (fun _ => .resolve none) "GET" "/nope" ⟨none, none⟩ "T"
    (by decide) (by decide)

/-- Claim C7: for every GET /health request, whatever the upstream
provider's behaviour and the request body, the response is 200 with
`status = "ok"` and the clock's timestamp, which is a valid ISO-8601 string
whenever the clock produces one (as `Date.toISOString` always does). -/
theorem C7_health_ok (u : TextGenArgs → UpstreamOutcome) (b : ReqBody)
    (now : String) (h : isIso8601 now = true) :
    route u "GET" "/health" b now = (⟨200, .health "ok" now⟩, []) ∧
      isIso8601 now = true := by
  refine ⟨?_, h⟩
  unfold route
  simp

/-- Witness for C7 at a concrete ISO-8601 clock value, with a provider that
always fails — the health route still answers 200. -/
theorem C7_health_ok_witness :
    route (fun _ => .throwErr "Error" "down") "GET" "/health" ⟨none, none⟩
        "2026-10-11T12:00:00.000Z" =
      (⟨200, .health "ok" "2026-10-11T12:00:00.000Z"⟩, []) ∧
      isIso8601 "2026-10-11T12:00:00.000Z" = true :=
  C7_health_ok (fun _ => .throwErr "Error" "down") ⟨none, none⟩
    "2026-10-11T12:00:00.000Z" (by decide)

/-- Claim C8: invoking the chat handler twice with identical bodies against
the same (deterministic) upstream provider yields responses that agree on
everything except the timestamp fields — in particular `response.message`
and `response.model` are identical; both variants. -/
theorem C8_idempotent (u : TextGenArgs → UpstreamOutcome) (b : ReqBody)
    (t₁ t₂ : String) :
    stripTs (handleChat u b t₁).1 = stripTs (handleChat u b t₂).1 ∧
      stripTs (handleChatP u b t₁).1 = stripTs (handleChatP u b t₂).1 :=
  ⟨(handleChat_ts_irrel u b t₁ t₂).1, (handleChatP_ts_irrel u b t₁ t₂).1⟩

/-- Claim C9: at the public interface, an empty-string `message` is falsy
and is rejected with 400 exactly like a missing one, while a
whitespace-only message such as "   " passes validation and is forwarded
verbatim to the upstream provider; both variants. -/
theorem C9_empty_vs_whitespace (u : TextGenArgs → UpstreamOutcome)
    (img : Option JsValue) (now : String) :
    handleChat u ⟨some (.str ""), img⟩ now =
      (⟨400, .errorEnvelope "Message is required and must be a string" none now⟩,
        []) ∧
      handleChatP u ⟨some (.str ""), img⟩ now =
        (⟨400,
          .errorEnvelope "Message is required and must be a string" none now⟩,
          []) ∧
      (handleChat u ⟨some (.str "   "), img⟩ now).2 =
        [⟨modelId, "   ", genParams⟩] ∧
      (handleChatP u ⟨some (.str "   "), img⟩ now).2 =
        [⟨modelId, "   ", genParams⟩] := by
  have hcalls := handleChat_calls (b := ⟨some (.str "   "), img⟩) u now rfl
    (by decide)
  refine ⟨?_, ?_, hcalls.1, hcalls.2⟩ <;>
    simp [handleChat, handleChatP, jsTruthy]

/-- Claim C10: two requests with the same `message` but arbitrary different
`image_url` values, served by the same upstream provider, produce the same
status, the same body apart from timestamps, and the same upstream calls;
both variants.  `image_url` never influences the outcome. -/
theorem C10_image_url_no_influence (u : TextGenArgs → UpstreamOutcome)
    (m i₁ i₂ : Option JsValue) (t₁ t₂ : String) :
    stripTs (handleChat u ⟨m, i₁⟩ t₁).1 = stripTs (handleChat u ⟨m, i₂⟩ t₂).1 ∧
      (handleChat u ⟨m, i₁⟩ t₁).2 = (handleChat u ⟨m, i₂⟩ t₂).2 ∧
      stripTs (handleChatP u ⟨m, i₁⟩ t₁).1 =
        stripTs (handleChatP u ⟨m, i₂⟩ t₂).1 ∧
      (handleChatP u ⟨m, i₁⟩ t₁).2 = (handleChatP u ⟨m, i₂⟩ t₂).2 := by
  have h₁ := handleChat_ts_irrel u ⟨m, i₂⟩ t₁ t₂
  have h₂ := handleChatP_ts_irrel u ⟨m, i₂⟩ t₁ t₂
  have hi : handleChat u ⟨m, i₁⟩ t₁ = handleChat u ⟨m, i₂⟩ t₁ :=
    handleChat_image_irrel u m i₁ i₂ t₁
  have hiP : handleChatP u ⟨m, i₁⟩ t₁ = handleChatP u ⟨m, i₂⟩ t₁ := rfl
  rw [hi, hiP]
  exact ⟨h₁.1, h₁.2, h₂.1, h₂.2⟩

end DeepSeekAPI
